import Mathlib

/-!
Shallow embedding of the Feynman-benchmark results-analysis pipeline
(`benchmarking/FeynmanBenchmark/feynman_results_analysis.py` and
`physo/benchmark/utils/read_logs.py`).

Expressions, parsing and algebraic comparison are external capabilities of
the sympy engine; the embedding is parametric over an expression type `E`,
a parse function and a checker-outcome function, and models exactly the
control flow and data handling of the Python code.
-/

namespace FeynmanAnalysis

/-- A cell of the `expression` column of a Pareto-front dataframe:
either a string or a bare numeric literal. -/
inductive Cell where
  | str (s : String)
  | num (q : ℚ)
deriving DecidableEq, Repr

/-- Python `str(...)` applied to an expression cell. -/
def cellToString : Cell → String
  | .str s => s
  | .num q => toString q

/-- A float value as stored in a free-constant column: either NaN or a
numeric value (modelled as a rational). -/
inductive FloatVal where
  | nan
  | val (q : ℚ)
deriving DecidableEq, Repr

/-- `np.nan_to_num(x, nan=1.)`: replaces NaN by 1, keeps other values. -/
def nan_to_num1 : FloatVal → ℚ
  | .nan => 1
  | .val q => q

/-- One row of a Pareto-front dataframe: the `expression` cell, the
`reward` value and the free-constant columns (name, value) of that row. -/
structure ParetoRow where
  exprCell : Cell
  reward : ℚ
  consts : List (String × FloatVal)
deriving DecidableEq, Repr

/-- The per-row substitution map `free_const_dict`, replacing NaN
free-constant values by 1 via `np.nan_to_num(..., nan=1.)`. -/
def free_const_dict (consts : List (String × FloatVal)) : List (String × ℚ) :=
  consts.map (fun p => (p.1, nan_to_num1 p.2))

variable {E : Type}

/-- `load_pareto_expressions` of `feynman_results_analysis.py` (lines 52-90):
iterates the rows, builds the substitution map with NaN constants replaced
by 1, and passes the RAW expression cell to `sympy.parse_expr` (there is no
`str(...)` coercion in this version). A parse failure propagates. -/
def load_pareto_expressions (parse : Cell → List (String × ℚ) → Except String E) :
    List ParetoRow → Except String (List E)
  | [] => .ok []
  | row :: rest =>
    match parse row.exprCell (free_const_dict row.consts) with
    | .error m => .error m
    | .ok e =>
      match load_pareto_expressions parse rest with
      | .error m => .error m
      | .ok es => .ok (e :: es)

/-- `get_pareto_expressions_from_df` of `read_logs.py` (lines 35-75): same
loop, but the expression cell is coerced with `str(...)` before parsing
("Force str in case only a float is present as expression"). -/
def get_pareto_expressions_from_df (parse : Cell → List (String × ℚ) → Except String E) :
    List ParetoRow → Except String (List E)
  | [] => .ok []
  | row :: rest =>
    match parse (Cell.str (cellToString row.exprCell)) (free_const_dict row.consts) with
    | .error m => .error m
    | .ok e =>
      match get_pareto_expressions_from_df parse rest with
      | .error m => .error m
      | .ok es => .ok (e :: es)

/-- The equivalence report dict built by `compare_expression` /
`assess_equivalence`. `sympy_exception` is `none` for Python `None`. -/
structure Report where
  symbolic_error : String
  symbolic_fraction : String
  symbolic_error_is_zero : Option Bool
  symbolic_error_is_constant : Option Bool
  symbolic_fraction_is_constant : Option Bool
  sympy_exception : Option String
  symbolic_solution : Bool
deriving DecidableEq, Repr

instance : Inhabited Report :=
  ⟨⟨"", "", none, none, none, none, false⟩⟩

/-- The negative report literal used in `assess_equivalence` (lines 149-157
and 170-178), parameterised by the exception tag. -/
def neg_report (tag : String) : Report :=
  { symbolic_error := ""
    symbolic_fraction := ""
    symbolic_error_is_zero := none
    symbolic_error_is_constant := none
    symbolic_fraction_is_constant := none
    sympy_exception := some tag
    symbolic_solution := false }

/-- Outcome of a call to `timed_compare_expr` (the 20 s-wrapped
`Feynman_pb.compare_expression`): a normal return, the exception raised by
the timeout wrapper on expiry, or any other exception raised during
comparison (domain error, singularity, ...). -/
inductive CheckerOutcome where
  | ok (isEquivalent : Bool) (report : Report)
  | timeoutRaised
  | excRaised (desc : String)
deriving DecidableEq, Repr

/-- The reward threshold `R_LIM = 0.6` (line 50). -/
def R_LIM : ℚ := 6 / 10

/-- The `try: ... timed_compare_expr ... except:` block of
`assess_equivalence` (lines 142-158): a bare `except` catches EVERY
exception — timeout or not — and substitutes the negative report tagged
"Timeout". -/
def timed_compare_result (check : E → CheckerOutcome) (e : E) : Bool × Report :=
  match check e with
  | .ok b rep => (b, rep)
  | .timeoutRaised => (false, neg_report "Timeout")
  | .excRaised _ => (false, neg_report "Timeout")

/-- The `for i in reversed(range(n_expr))` loop of `assess_equivalence`
(lines 130-184), taking the (reward, expression) pairs already in
most-complex-first order. Returns the accumulated
`(equivalence_list[i], report_list[i])` pairs in append order together with
the number of `timed_compare_expr` invocations. A positive verdict breaks
the loop; a reward `≤ R_LIM` skips the checker and appends the "LowReward"
negative report. -/
def assess_loop (check : E → CheckerOutcome) :
    List (ℚ × E) → List (Bool × Report) × ℕ
  | [] => ([], 0)
  | (r, e) :: rest =>
    if R_LIM < r then
      let (b, rep) := timed_compare_result check e
      if b then
        ([(b, rep)], 1)
      else
        let (l, c) := assess_loop check rest
        ((b, rep) :: l, c + 1)
    else
      let (l, c) := assess_loop check rest
      ((false, neg_report "LowReward") :: l, c)

/-- Errors that can escape the analysis functions. -/
inductive PyErr where
  | parseErr (msg : String)
  | indexError
  | valueError (msg : String)
deriving DecidableEq, Repr

/-- The final selection of `assess_equivalence` (lines 186-204): if any
verdict is positive, return the pair at the first positive index (first in
append order, i.e. most-complex-first); otherwise return the pair at index
0 — which raises an IndexError when the lists are empty. -/
def select_result : List (Bool × Report) → Except PyErr (Bool × Report)
  | [] => .error .indexError
  | p :: ps => .ok (((p :: ps).find? (fun q => q.1)).getD p)

/-- `assess_equivalence` (lines 97-204): loads the Pareto expressions
(a parse failure propagates uncaught), walks the front from most complex to
least, and selects the resulting (verdict, report) pair. -/
def assess_equivalence (parse : Cell → List (String × ℚ) → Except String E)
    (check : E → CheckerOutcome) (rows : List ParetoRow) :
    Except PyErr (Bool × Report) :=
  match load_pareto_expressions parse rows with
  | .error m => .error (.parseErr m)
  | .ok exprs =>
    let pairs := ((rows.map ParetoRow.reward).zip exprs).reverse
    select_result (assess_loop check pairs).1

/-- Number of `timed_compare_expr` invocations performed by
`assess_equivalence` on the given front (0 when loading fails). -/
def checker_calls (parse : Cell → List (String × ℚ) → Except String E)
    (check : E → CheckerOutcome) (rows : List ParetoRow) : ℕ :=
  match load_pareto_expressions parse rows with
  | .error _ => 0
  | .ok exprs =>
    let pairs := ((rows.map ParetoRow.reward).zip exprs).reverse
    (assess_loop check pairs).2

/-- Python's substring membership `needle in hay` on strings
(as used on line 249: `pb_folder_prefix in folders`). -/
def pyIn (needle hay : String) : Bool :=
  decide (needle.toList <:+: hay.toList)

/-- The folder-selection step of `load_run_data` (lines 249-251):
`list(filter(lambda folders: pb_folder_prefix in folders, os.listdir(...)))`
followed by taking element 0 when the list is non-empty. -/
def select_pb_folder (listdir : List String) (pfx : String) : Option String :=
  (listdir.filter (fun f => pyIn pfx f)).head?

/-- The noise level returned by `load_run_data`: `np.NAN` when no folder is
found, otherwise the string `pb_folder.split("_")[-1]`. -/
inductive NoiseVal where
  | nanSentinel
  | fromFolder (s : String)
deriving DecidableEq, Repr

variable {DF : Type}

/-- The guarded `pd.read_csv` calls of `load_run_data` (lines 262-274):
`pd.read_csv(None)` raises and is caught, yielding `None`; a real path is
read and any failure is likewise caught, yielding `None`. `read_csv`
models `pd.read_csv` on an actual path. -/
def try_read_csv (read_csv : String → Except String DF) : Option String → Option DF
  | none => none
  | some p => (read_csv p).toOption

/-- `load_run_data` (lines 234-276): selects the first folder whose name
contains the prefix; when none matches, the pareto and curves paths are
`None` and the noise level is the NaN sentinel; both csv reads are guarded
and substitute `None` on failure. -/
def load_run_data (listdir : List String) (read_csv : String → Except String DF)
    (pfx : String) : Option DF × Option DF × NoiseVal :=
  match select_pb_folder listdir pfx with
  | some pb_folder =>
    let path_pareto := pb_folder ++ "/SR_curves_pareto.csv"
    let path_curves := pb_folder ++ "/SR_curves_data.csv"
    let noise_lvl := NoiseVal.fromFolder ((pb_folder.splitOn "_").getLastD "")
    (try_read_csv read_csv (some path_pareto),
     try_read_csv read_csv (some path_curves),
     noise_lvl)
  | none =>
    (try_read_csv read_csv none, try_read_csv read_csv none, NoiseVal.nanSentinel)

/-- The third component of a `columns` entry (lines 286-319): `True`
(aggregation key), `False` (not aggregated), or one of `np.sum`, `np.mean`,
`np.median`. -/
inductive AggMethod where
  | key
  | drop
  | sum
  | mean
  | median
deriving DecidableEq, Repr

/-- The Python dtype of a column. -/
inductive PyDtype where
  | str
  | int
  | float
  | bool
deriving DecidableEq, Repr

/-- The `columns` table (lines 288-319): column name, dtype, aggregation
directive. -/
def columns : List (String × PyDtype × AggMethod) :=
  [ ("algorithm"    , .str  , .key),
    ("data_group"   , .str  , .key),
    ("dataset"      , .str  , .key),
    ("EQ NB"        , .int  , .key),
    ("random_state" , .int  , .drop),
    ("target_noise" , .float, .key),
    ("true_model"   , .str  , .key),
    ("# EVALUATIONS", .int  , .sum),
    ("STARTED"      , .bool , .sum),
    ("FINISHED"     , .bool , .sum),
    ("symbolic_model"            , .str  , .drop),
    ("model_size"                , .float, .mean),
    ("simplified_symbolic_model" , .str  , .drop),
    ("simplified_complexity"     , .float, .mean),
    ("symbolic_error"                , .str , .drop),
    ("symbolic_fraction"             , .str , .drop),
    ("symbolic_error_is_zero"        , .bool, .sum),
    ("symbolic_error_is_constant"    , .bool, .sum),
    ("symbolic_fraction_is_constant" , .bool, .sum),
    ("sympy_exception"               , .str , .drop),
    ("symbolic_solution"             , .bool, .mean),
    ("mse_test"     , .float, .median),
    ("mae_test"     , .float, .median),
    ("r2_test"      , .float, .median),
    ("r2_zero_test" , .float, .median) ]

/-- `columns_to_aggregate_on` (line 322): the names of columns whose
directive is `True`. -/
def columns_to_aggregate_on : List String :=
  (columns.filter (fun c => c.2.2 = AggMethod.key)).map (fun c => c.1)

/-- `columns_aggregation_methods` (line 323): name → reduction for the
columns whose directive is neither `True` nor `False`. -/
def columns_aggregation_methods : List (String × AggMethod) :=
  (columns.filter (fun c => c.2.2 ≠ AggMethod.key ∧ c.2.2 ≠ AggMethod.drop)).map
    (fun c => (c.1, c.2.2))

/-- The reduction applied to a named column, if any. -/
def aggregation_method_of (name : String) : Option AggMethod :=
  (columns_aggregation_methods.find? (fun c => c.1 = name)).map (fun c => c.2)

/-- The `----- Symbolic results related -----` block of the main loop
(lines 397-409): when the front failed to load, substitute the sentinels
`("", 0.)`; when the front was loaded, any failure of the `try` block —
an unparseable expression or an empty expression list — is caught and
re-raised as `ValueError`, aborting the batch. `toStr` and `cplx` model
`str` and `Feyn.complexity` on expressions. -/
def run_symbolic_results (parse : Cell → List (String × ℚ) → Except String E)
    (toStr : E → String) (cplx : E → ℚ)
    (pareto_df : Option (List ParetoRow)) : Except PyErr (String × ℚ) :=
  match pareto_df with
  | none => .ok ("", 0)
  | some rows =>
    match load_pareto_expressions parse rows with
    | .error _ =>
      .error (.valueError "Pareto df properly loaded but expressions could not be loaded.")
    | .ok exprs =>
      match exprs.getLast? with
      | none =>
        .error (.valueError "Pareto df properly loaded but expressions could not be loaded.")
      | some best_expr => .ok (toStr best_expr, cplx best_expr)

/-! Concrete fixtures used to instantiate the parametric embedding in
counterexamples and witnesses. Expressions are instantiated as `E = String`
(the parsed text); `parseStrict` models `sympy.parse_expr`, which accepts a
string and raises on any other input type. -/

def parseStrict : Cell → List (String × ℚ) → Except String String :=
  fun c _ =>
    match c with
    | .str s => .ok s
    | .num _ => .error "SympyTypeError: expecting str"

/-- A parse function that always fails, modelling a malformed expression
string. -/
def parseFailAll : Cell → List (String × ℚ) → Except String String :=
  fun _ _ => .error "SyntaxError"

/-- A non-canonical negative report, as `compare_expression` would return
for a non-equivalent candidate (tag `None`). -/
def rep_neg : Report :=
  { symbolic_error := "x - 1"
    symbolic_fraction := "x"
    symbolic_error_is_zero := some false
    symbolic_error_is_constant := some false
    symbolic_fraction_is_constant := some false
    sympy_exception := none
    symbolic_solution := false }

/-- A positive report, as `compare_expression` would return for an
equivalent candidate. -/
def rep_pos : Report :=
  { symbolic_error := "0"
    symbolic_fraction := "1"
    symbolic_error_is_zero := some true
    symbolic_error_is_constant := some false
    symbolic_fraction_is_constant := some true
    sympy_exception := none
    symbolic_solution := true }

/-- A checker for which no candidate is equivalent. -/
def check_allneg : String → CheckerOutcome := fun _ => .ok false rep_neg

/-- A checker that raises a non-timeout exception (e.g. a domain error)
on every comparison. -/
def check_domain_error : String → CheckerOutcome :=
  fun _ => .excRaised "PolynomialDivisionFailed"

/-- A checker for which exactly the expression "c" is equivalent. -/
def check_only_c : String → CheckerOutcome :=
  fun s => if s = "c" then .ok true rep_pos else .ok false rep_neg

/-- A two-candidate front: the least complex (index 0) has reward 1/2
(below threshold), the most complex (index 1) has reward 9/10. -/
def rows_two : List ParetoRow :=
  [⟨.str "a", 1 / 2, []⟩, ⟨.str "b", 9 / 10, []⟩]

/-- A single-candidate front whose candidate is above the reward
threshold. -/
def rows_one_good : List ParetoRow := [⟨.str "a", 9 / 10, []⟩]

/-- A single-candidate front whose candidate is below the reward
threshold. -/
def rows_one_low : List ParetoRow := [⟨.str "a", 1 / 2, []⟩]

/-- A three-candidate front, rewards increasing with complexity, all above
the threshold; "c" is the most complex expression. -/
def rows_three : List ParetoRow :=
  [⟨.str "a", 7 / 10, []⟩, ⟨.str "b", 8 / 10, []⟩, ⟨.str "c", 95 / 100, []⟩]

/-! Helper lemmas about the embedding. -/

theorem load_pareto_expressions_length
    (parse : Cell → List (String × ℚ) → Except String E)
    (rows : List ParetoRow) (exprs : List E)
    (h : load_pareto_expressions parse rows = .ok exprs) :
    exprs.length = rows.length := by
  induction rows generalizing exprs with
  | nil =>
    simp only [load_pareto_expressions] at h
    cases h
    rfl
  | cons row rest ih =>
    simp only [load_pareto_expressions] at h
    cases hp : parse row.exprCell (free_const_dict row.consts) with
    | error m => rw [hp] at h; cases h
    | ok e =>
      rw [hp] at h
      cases hrec : load_pareto_expressions parse rest with
      | error m => rw [hrec] at h; cases h
      | ok es =>
        rw [hrec] at h
        cases h
        simp [ih es hrec]

theorem assess_loop_low (check : E → CheckerOutcome) (r : ℚ) (e : E)
    (rest : List (ℚ × E)) (hr : ¬ R_LIM < r) :
    assess_loop check ((r, e) :: rest) =
      ((false, neg_report "LowReward") :: (assess_loop check rest).1,
       (assess_loop check rest).2) := by
  simp [assess_loop, hr]

theorem assess_loop_neg (check : E → CheckerOutcome) (r : ℚ) (e : E)
    (rest : List (ℚ × E)) (rep : Report) (hr : R_LIM < r)
    (htc : timed_compare_result check e = (false, rep)) :
    assess_loop check ((r, e) :: rest) =
      ((false, rep) :: (assess_loop check rest).1,
       (assess_loop check rest).2 + 1) := by
  simp [assess_loop, hr, htc]

theorem assess_loop_pos (check : E → CheckerOutcome) (r : ℚ) (e : E)
    (rest : List (ℚ × E)) (rep : Report) (hr : R_LIM < r)
    (htc : timed_compare_result check e = (true, rep)) :
    assess_loop check ((r, e) :: rest) = ([(true, rep)], 1) := by
  simp [assess_loop, hr, htc]

theorem assess_loop_ne_nil (check : E → CheckerOutcome) (l : List (ℚ × E))
    (h : l ≠ []) : (assess_loop check l).1 ≠ [] := by
  match l with
  | [] => exact absurd rfl h
  | (r, e) :: rest =>
    by_cases hr : R_LIM < r
    · cases htc : timed_compare_result check e with
      | mk b rep =>
        cases b
        · rw [assess_loop_neg check r e rest rep hr htc]
          simp
        · rw [assess_loop_pos check r e rest rep hr htc]
          simp
    · rw [assess_loop_low check r e rest hr]
      simp

theorem select_result_all_false (p : Bool × Report) (l : List (Bool × Report))
    (hall : ∀ q ∈ p :: l, q.1 = false) :
    select_result (p :: l) = .ok p := by
  have hnone : (p :: l).find? (fun q => q.1) = none := by
    rw [List.find?_eq_none]
    intro x hx
    simp [hall x hx]
  simp [select_result, hnone]

theorem select_result_head_true (p : Bool × Report) (l : List (Bool × Report))
    (h : p.1 = true) : select_result (p :: l) = .ok p := by
  simp [select_result, List.find?_cons_of_pos _ h]

theorem assess_loop_nil (check : E → CheckerOutcome) :
    assess_loop check ([] : List (ℚ × E)) = ([], 0) := rfl

theorem assess_equivalence_eq (parse : Cell → List (String × ℚ) → Except String E)
    (check : E → CheckerOutcome) (rows : List ParetoRow) (exprs : List E)
    (hload : load_pareto_expressions parse rows = .ok exprs) :
    assess_equivalence parse check rows =
      select_result
        (assess_loop check (((rows.map ParetoRow.reward).zip exprs).reverse)).1 := by
  unfold assess_equivalence
  rw [hload]

theorem checker_calls_eq (parse : Cell → List (String × ℚ) → Except String E)
    (check : E → CheckerOutcome) (rows : List ParetoRow) (exprs : List E)
    (hload : load_pareto_expressions parse rows = .ok exprs) :
    checker_calls parse check rows =
      (assess_loop check (((rows.map ParetoRow.reward).zip exprs).reverse)).2 := by
  unfold checker_calls
  rw [hload]

theorem R_LIM_lt_910 : R_LIM < 9 / 10 := by norm_num [R_LIM]

theorem R_LIM_lt_95100 : R_LIM < 95 / 100 := by norm_num [R_LIM]

theorem not_R_LIM_lt_half : ¬ R_LIM < 1 / 2 := by norm_num [R_LIM]

theorem half_le_R_LIM : (1 / 2 : ℚ) ≤ R_LIM := by norm_num [R_LIM]

theorem zero_le_R_LIM : (0 : ℚ) ≤ R_LIM := by norm_num [R_LIM]

/-! Claim theorems. -/

/-- C1 (counterexample): on a two-candidate front with no equivalent
candidate, the pair computed for the least-complex evaluated candidate (the
last element of the accumulated list) is the "LowReward" one, yet
`assess_equivalence` returns the pair computed for the most-complex
candidate — refuting the claim that the returned pair is the one of the
least-complex evaluated candidate. -/
theorem assess_fallback_least_complex_cex :
    assess_equivalence parseStrict check_allneg rows_two = .ok (false, rep_neg) ∧
    (assess_loop check_allneg
        (((rows_two.map ParetoRow.reward).zip ["a", "b"]).reverse)).1.getLast?
      = some (false, neg_report "LowReward") ∧
    ((false, rep_neg) : Bool × Report) ≠ (false, neg_report "LowReward") := by
  have hloop :
      assess_loop check_allneg (((rows_two.map ParetoRow.reward).zip ["a", "b"]).reverse)
        = ([(false, rep_neg), (false, neg_report "LowReward")], 1) := by
    show assess_loop check_allneg [((9 : ℚ) / 10, "b"), ((1 : ℚ) / 2, "a")] = _
    rw [assess_loop_neg check_allneg _ _ _ rep_neg R_LIM_lt_910 rfl,
        assess_loop_low check_allneg _ _ _ not_R_LIM_lt_half, assess_loop_nil]
  refine ⟨?_, ?_, by decide⟩
  · rw [assess_equivalence_eq parseStrict check_allneg rows_two ["a", "b"] rfl, hloop]
    rfl
  · rw [hloop]
    rfl

/-- C1 (amended): when `assess_equivalence` traverses an entire Pareto
front and no candidate yields a positive equivalence verdict, the
(verdict, report) pair it returns is the one computed for the MOST-complex
candidate — the first one processed in the most-complex-to-least-complex
walk (element 0 of the accumulated lists). -/
theorem assess_fallback_returns_most_complex
    (parse : Cell → List (String × ℚ) → Except String E)
    (check : E → CheckerOutcome) (rows : List ParetoRow) (exprs : List E)
    (r : ℚ) (e : E) (rest : List (ℚ × E))
    (hload : load_pareto_expressions parse rows = .ok exprs)
    (hrev : ((rows.map ParetoRow.reward).zip exprs).reverse = (r, e) :: rest)
    (hall : ∀ p ∈ (assess_loop check ((r, e) :: rest)).1, p.1 = false) :
    assess_equivalence parse check rows =
      .ok (if R_LIM < r then timed_compare_result check e
           else (false, neg_report "LowReward")) := by
  unfold assess_equivalence
  rw [hload]
  show select_result
      (assess_loop check (((rows.map ParetoRow.reward).zip exprs).reverse)).1 = _
  rw [hrev]
  by_cases hr : R_LIM < r
  · rcases htc : timed_compare_result check e with ⟨b, rep⟩
    cases b with
    | true =>
      rw [assess_loop_pos check r e rest rep hr htc] at hall
      have := hall (true, rep) (by simp)
      simp at this
    | false =>
      rw [assess_loop_neg check r e rest rep hr htc] at hall ⊢
      rw [if_pos hr]
      exact select_result_all_false _ _ hall
  · rw [assess_loop_low check r e rest hr] at hall ⊢
    rw [if_neg hr]
    exact select_result_all_false _ _ hall

/-- C1 (witness): the amended theorem applied to the concrete
two-candidate front. -/
theorem assess_fallback_returns_most_complex_wit :
    assess_equivalence parseStrict check_allneg rows_two =
      .ok (if R_LIM < (9 / 10 : ℚ) then timed_compare_result check_allneg "b"
           else (false, neg_report "LowReward")) :=
  assess_fallback_returns_most_complex parseStrict check_allneg rows_two
    ["a", "b"] (9 / 10) "b" [((1 / 2 : ℚ), "a")] rfl rfl
    (by
      rw [assess_loop_neg check_allneg _ _ _ rep_neg R_LIM_lt_910 rfl,
          assess_loop_low check_allneg _ _ _ not_R_LIM_lt_half, assess_loop_nil]
      intro p hp
      simp at hp
      rcases hp with h | h <;> simp [h])

/-- C2 (counterexample): a checker raising a non-timeout exception (a
domain error during simplification) yields verdict `false` without
propagating — but the report's exception tag is exactly "Timeout", not a
description of that specific failure distinct from "Timeout". -/
theorem nontimeout_failure_tag_cex :
    check_domain_error "a" = .excRaised "PolynomialDivisionFailed" ∧
    assess_equivalence parseStrict check_domain_error rows_one_good
      = .ok (false, neg_report "Timeout") ∧
    (neg_report "Timeout").sympy_exception = some "Timeout" := by
  refine ⟨rfl, ?_, rfl⟩
  rw [assess_equivalence_eq parseStrict check_domain_error rows_one_good ["a"] rfl]
  show select_result (assess_loop check_domain_error [((9 : ℚ) / 10, "a")]).1 = _
  rw [assess_loop_neg check_domain_error _ _ _ (neg_report "Timeout") R_LIM_lt_910 rfl,
      assess_loop_nil]
  rfl

/-- C2 (amended): when the equivalence comparison of a candidate fails for
ANY reason — the wall-clock timeout or any other exception (domain error,
singularity, ...) — the bare `except` returns verdict `false` without
propagating the exception, and the report's exception tag is always
"Timeout", regardless of the actual cause of the failure. -/
theorem any_failure_tagged_timeout
    (parse : Cell → List (String × ℚ) → Except String E)
    (check : E → CheckerOutcome) (row : ParetoRow) (e : E) (d : String)
    (hload : load_pareto_expressions parse [row] = .ok [e])
    (hr : R_LIM < row.reward)
    (hfail : check e = .timeoutRaised ∨ check e = .excRaised d) :
    timed_compare_result check e = (false, neg_report "Timeout") ∧
    assess_equivalence parse check [row] = .ok (false, neg_report "Timeout") := by
  have htc : timed_compare_result check e = (false, neg_report "Timeout") := by
    rcases hfail with h | h <;> simp [timed_compare_result, h]
  refine ⟨htc, ?_⟩
  rw [assess_equivalence_eq parse check [row] [e] hload]
  show select_result (assess_loop check [(row.reward, e)]).1 = _
  rw [assess_loop_neg check row.reward e [] (neg_report "Timeout") hr htc,
      assess_loop_nil]
  rfl

/-- C2 (witness): the amended theorem applied to a concrete one-candidate
front and a checker raising a domain error. -/
theorem any_failure_tagged_timeout_wit :
    timed_compare_result check_domain_error "a" = (false, neg_report "Timeout") ∧
    assess_equivalence parseStrict check_domain_error [⟨.str "a", 9 / 10, []⟩]
      = .ok (false, neg_report "Timeout") :=
  any_failure_tagged_timeout parseStrict check_domain_error
    ⟨.str "a", 9 / 10, []⟩ "a" "PolynomialDivisionFailed" rfl R_LIM_lt_910
    (Or.inr rfl)

/-- C3 (counterexample): a front that was successfully loaded
(`pareto_df` is not `None`) but contains an unparseable expression DOES
abort the batch: the caught parse failure is re-raised as a `ValueError`
instead of being converted to a sentinel value. -/
theorem parse_failure_aborts_batch_cex :
    run_symbolic_results parseFailAll (fun s => s) (fun _ => (0 : ℚ))
        (some [⟨Cell.str "xx", 9 / 10, []⟩])
      = .error
          (.valueError "Pareto df properly loaded but expressions could not be loaded.") :=
  rfl

/-- C3 (amended): when an expression of a successfully loaded front fails
to parse, the failure is caught at the point of use but re-raised as a
`ValueError` that aborts the batch; only when the front itself could not be
loaded (`pareto_df` is `None`) is the failure converted to the sentinel
values `("", 0.)` and the per-problem loop continues. -/
theorem parse_failure_reraised_on_loaded_front
    (parse : Cell → List (String × ℚ) → Except String E)
    (toStr : E → String) (cplx : E → ℚ) (rows : List ParetoRow) (msg : String)
    (hfail : load_pareto_expressions parse rows = .error msg) :
    run_symbolic_results parse toStr cplx (some rows) =
      .error
        (.valueError "Pareto df properly loaded but expressions could not be loaded.") ∧
    run_symbolic_results parse toStr cplx none = .ok ("", 0) := by
  constructor
  · simp [run_symbolic_results, hfail]
  · rfl

/-- C3 (witness): the amended theorem applied to a concrete unparseable
one-row front. -/
theorem parse_failure_reraised_on_loaded_front_wit :
    run_symbolic_results parseFailAll (fun s => s) (fun _ => (0 : ℚ))
        (some [⟨Cell.str "xx", 9 / 10, []⟩]) =
      .error
        (.valueError "Pareto df properly loaded but expressions could not be loaded.") ∧
    run_symbolic_results parseFailAll (fun s => s) (fun _ => (0 : ℚ)) none
      = .ok ("", 0) :=
  parse_failure_reraised_on_loaded_front parseFailAll (fun s => s)
    (fun _ => (0 : ℚ)) [⟨Cell.str "xx", 9 / 10, []⟩] "SyntaxError" rfl

/-- C4 (confirmed): for every candidate with reward ≤ 0.6, the equivalence
checker is never invoked for that candidate and a negative verdict tagged
"LowReward" is recorded instead (the loop step contributes the "LowReward"
pair and leaves the invocation count unchanged); in particular a front
whose sole candidate has reward ≤ 0.6 yields verdict `false`,
tag "LowReward", with zero checker invocations. -/
theorem low_reward_skips_checker
    (parse : Cell → List (String × ℚ) → Except String E)
    (check : E → CheckerOutcome) (r : ℚ) (e : E) (rest : List (ℚ × E))
    (row : ParetoRow) (e0 : E)
    (hr : r ≤ R_LIM)
    (hrow : row.reward ≤ R_LIM)
    (hload : load_pareto_expressions parse [row] = .ok [e0]) :
    assess_loop check ((r, e) :: rest) =
      ((false, neg_report "LowReward") :: (assess_loop check rest).1,
       (assess_loop check rest).2) ∧
    assess_equivalence parse check [row] = .ok (false, neg_report "LowReward") ∧
    checker_calls parse check [row] = 0 := by
  have hr' : ¬ R_LIM < r := not_lt.mpr hr
  have hrow' : ¬ R_LIM < row.reward := not_lt.mpr hrow
  refine ⟨assess_loop_low check r e rest hr', ?_, ?_⟩
  · rw [assess_equivalence_eq parse check [row] [e0] hload]
    show select_result (assess_loop check [(row.reward, e0)]).1 = _
    rw [assess_loop_low check row.reward e0 [] hrow', assess_loop_nil]
    rfl
  · rw [checker_calls_eq parse check [row] [e0] hload]
    show (assess_loop check [(row.reward, e0)]).2 = 0
    rw [assess_loop_low check row.reward e0 [] hrow', assess_loop_nil]

/-- C4 (witness): the theorem applied to a concrete low-reward candidate
and a concrete sole-candidate front with reward 1/2 ≤ 0.6. -/
theorem low_reward_skips_checker_wit :
    assess_loop check_allneg [((1 / 2 : ℚ), "z")] =
      ((false, neg_report "LowReward") :: (assess_loop check_allneg []).1,
       (assess_loop check_allneg []).2) ∧
    assess_equivalence parseStrict check_allneg [⟨.str "a", 1 / 2, []⟩]
      = .ok (false, neg_report "LowReward") ∧
    checker_calls parseStrict check_allneg [⟨.str "a", 1 / 2, []⟩] = 0 :=
  low_reward_skips_checker parseStrict check_allneg (1 / 2) "z" []
    ⟨.str "a", 1 / 2, []⟩ "a" half_le_R_LIM half_le_R_LIM rfl

/-- C5 (confirmed): `assess_equivalence` stops the walk at the first
positive equivalence verdict, so on a 3-candidate front whose most complex
candidate has reward above the 0.6 threshold and is found equivalent, the
equivalence checker is invoked at most once, and the positive pair is
returned. -/
theorem short_circuit_at_first_positive
    (parse : Cell → List (String × ℚ) → Except String E)
    (check : E → CheckerOutcome) (c0 c1 c2 : ParetoRow) (e0 e1 e2 : E)
    (rep : Report)
    (hload : load_pareto_expressions parse [c0, c1, c2] = .ok [e0, e1, e2])
    (hr2 : R_LIM < c2.reward)
    (hcheck : check e2 = .ok true rep) :
    checker_calls parse check [c0, c1, c2] ≤ 1 ∧
    assess_equivalence parse check [c0, c1, c2] = .ok (true, rep) := by
  have htc : timed_compare_result check e2 = (true, rep) := by
    simp [timed_compare_result, hcheck]
  constructor
  · rw [checker_calls_eq parse check [c0, c1, c2] [e0, e1, e2] hload]
    show (assess_loop check
        [(c2.reward, e2), (c1.reward, e1), (c0.reward, e0)]).2 ≤ 1
    rw [assess_loop_pos check c2.reward e2 _ rep hr2 htc]
  · rw [assess_equivalence_eq parse check [c0, c1, c2] [e0, e1, e2] hload]
    show select_result (assess_loop check
        [(c2.reward, e2), (c1.reward, e1), (c0.reward, e0)]).1 = _
    rw [assess_loop_pos check c2.reward e2 _ rep hr2 htc]
    exact select_result_head_true _ _ rfl

/-- C5 (witness): the theorem applied to the concrete three-candidate
front where only "c", the most complex candidate (reward 95/100), is
equivalent. -/
theorem short_circuit_at_first_positive_wit :
    checker_calls parseStrict check_only_c rows_three ≤ 1 ∧
    assess_equivalence parseStrict check_only_c rows_three = .ok (true, rep_pos) :=
  short_circuit_at_first_positive parseStrict check_only_c
    ⟨.str "a", 7 / 10, []⟩ ⟨.str "b", 8 / 10, []⟩ ⟨.str "c", 95 / 100, []⟩
    "a" "b" "c" rep_pos rfl R_LIM_lt_95100 rfl

/-- C6 (counterexample): a folder whose name does NOT start with the given
naming stem is nevertheless selected, because the code tests Python
substring membership (`pb_folder_prefix in folders`), not a
starts-with relation — refuting "a folder is selected exactly when its
name starts with the prefix". -/
theorem folder_selection_startswith_cex :
    select_pb_folder ["run_FR_0_0_0.0"] "FR_0_0" = some "run_FR_0_0_0.0" ∧
    ¬ ("FR_0_0".toList <+: "run_FR_0_0_0.0".toList) := by
  refine ⟨?_, by decide⟩
  show (List.filter (fun f => pyIn "FR_0_0" f) ["run_FR_0_0_0.0"]).head?
      = some "run_FR_0_0_0.0"
  have h : pyIn "FR_0_0" "run_FR_0_0_0.0" = true := by decide
  rw [List.filter_cons_of_pos h]
  rfl

/-- C6 (amended): `load_run_data` selects a folder exactly when its name
CONTAINS the given stem as a substring (Python `in`), and when several
folders match, the first match in directory-listing order is taken — i.e.
the selection equals `find?` with the substring test. -/
theorem folder_selection_substring_semantics (listdir : List String)
    (pfx f : String) :
    select_pb_folder listdir pfx = listdir.find? (fun g => pyIn pfx g) ∧
    (pyIn pfx f = true ↔ pfx.toList <:+: f.toList) := by
  constructor
  · unfold select_pb_folder
    induction listdir with
    | nil => rfl
    | cons a l ih =>
      cases h : pyIn pfx a
      · rw [List.filter_cons_of_neg (by simp [h]),
            List.find?_cons_of_neg _ (by simp [h]), ih]
      · rw [List.filter_cons_of_pos h, List.find?_cons_of_pos _ h]
        rfl
  · simp [pyIn]

/-- C7 (confirmed): calling `load_run_data` with a stem matched by no
folder of the results directory returns `(None, None, NaN-sentinel)`; the
function is total, so no exception is raised. -/
theorem load_run_data_sentinel_when_unmatched {DF : Type}
    (listdir : List String) (read_csv : String → Except String DF)
    (pfx : String)
    (h : ∀ f ∈ listdir, pyIn pfx f = false) :
    load_run_data listdir read_csv pfx = (none, none, NoiseVal.nanSentinel) := by
  have hsel : select_pb_folder listdir pfx = none := by
    unfold select_pb_folder
    rw [List.filter_eq_nil_iff.mpr (by intro a ha; simp [h a ha])]
    rfl
  unfold load_run_data
  rw [hsel]
  rfl

/-- C7 (witness): the theorem applied to a concrete listing in which no
folder contains the stem "FR_0_0". -/
theorem load_run_data_sentinel_when_unmatched_wit :
    load_run_data ["some_other_folder"] (fun _ => (.error "nofile" : Except String Unit))
        "FR_0_0"
      = (none, none, NoiseVal.nanSentinel) :=
  load_run_data_sentinel_when_unmatched ["some_other_folder"]
    (fun _ => .error "nofile") "FR_0_0" (by decide)

/-- C8 (counterexample): the expression loader of the analysis script
(`load_pareto_expressions`) does NOT coerce the expression cell to a string
before parsing: on a row whose cell is a bare numeric literal it hands the
raw non-string cell to the parser (which rejects it), whereas the
`read_logs.py` loader, which does coerce, succeeds on the same row. -/
theorem loader_missing_str_coercion_cex :
    load_pareto_expressions parseStrict [⟨Cell.num (3 / 2), 9 / 10, []⟩]
      = .error "SympyTypeError: expecting str" ∧
    get_pareto_expressions_from_df parseStrict [⟨Cell.num (3 / 2), 9 / 10, []⟩]
      = .ok [cellToString (Cell.num (3 / 2))] :=
  ⟨rfl, rfl⟩

/-- C8 (amended): only the `read_logs.py` loader
(`get_pareto_expressions_from_df`) coerces the expression cell to a string
before parsing — it behaves exactly like `load_pareto_expressions` run on
rows whose cells have been string-coerced — while `load_pareto_expressions`
of the analysis script passes the raw cell; both loaders replace every
not-a-number free-constant value of a row's substitution map with 1.0. -/
theorem read_logs_loader_coerces_and_nan_default
    (parse : Cell → List (String × ℚ) → Except String E) (rows : List ParetoRow)
    (n : String) (v : FloatVal) (cs : List (String × FloatVal))
    (hmem : (n, v) ∈ cs) (hnan : v = FloatVal.nan) :
    get_pareto_expressions_from_df parse rows =
      load_pareto_expressions parse
        (rows.map (fun row =>
          { row with exprCell := Cell.str (cellToString row.exprCell) })) ∧
    (n, (1 : ℚ)) ∈ free_const_dict cs := by
  constructor
  · induction rows with
    | nil => rfl
    | cons row rest ih =>
      simp only [get_pareto_expressions_from_df, load_pareto_expressions,
        List.map_cons]
      rw [ih]
  · subst hnan
    simp only [free_const_dict]
    exact List.mem_map.mpr ⟨(n, FloatVal.nan), hmem, rfl⟩

/-- C8 (witness): the amended theorem applied to the concrete
two-candidate front and a substitution map containing a NaN constant. -/
theorem read_logs_loader_coerces_and_nan_default_wit :
    get_pareto_expressions_from_df parseStrict rows_two =
      load_pareto_expressions parseStrict
        (rows_two.map (fun row =>
          { row with exprCell := Cell.str (cellToString row.exprCell) })) ∧
    ("k", (1 : ℚ)) ∈ free_const_dict [("k", FloatVal.nan)] :=
  read_logs_loader_coerces_and_nan_default parseStrict rows_two
    "k" FloatVal.nan [("k", FloatVal.nan)] (by simp) rfl

/-- C9 (confirmed): the aggregation schema groups runs by
(algorithm, data_group, dataset, equation id, target noise, true-model
string) — excluding the trial seed `random_state` — and reduces the named
fields as claimed: evaluation counts and started/finished flags by sum;
model_size, simplified_complexity and the symbolic_solution boolean by
mean; the four numeric test metrics by median; the free-text and per-run
identifier fields (raw symbolic strings, seed, exception tag) are dropped
from the aggregate. -/
theorem aggregation_schema_spec :
    columns_to_aggregate_on =
      ["algorithm", "data_group", "dataset", "EQ NB", "target_noise",
       "true_model"] ∧
    "random_state" ∉ columns_to_aggregate_on ∧
    aggregation_method_of "# EVALUATIONS" = some .sum ∧
    aggregation_method_of "STARTED" = some .sum ∧
    aggregation_method_of "FINISHED" = some .sum ∧
    aggregation_method_of "model_size" = some .mean ∧
    aggregation_method_of "simplified_complexity" = some .mean ∧
    aggregation_method_of "symbolic_solution" = some .mean ∧
    aggregation_method_of "mse_test" = some .median ∧
    aggregation_method_of "mae_test" = some .median ∧
    aggregation_method_of "r2_test" = some .median ∧
    aggregation_method_of "r2_zero_test" = some .median ∧
    aggregation_method_of "symbolic_model" = none ∧
    aggregation_method_of "simplified_symbolic_model" = none ∧
    aggregation_method_of "symbolic_error" = none ∧
    aggregation_method_of "symbolic_fraction" = none ∧
    aggregation_method_of "sympy_exception" = none ∧
    aggregation_method_of "random_state" = none := by
  decide

/-- C10 (confirmed): `assess_equivalence` is total only on non-empty
fronts: on the empty front the final selection indexes an empty verdict
list and raises an IndexError, while on any front with at least one row
whose expressions all parse it returns normally. -/
theorem assess_total_iff_front_nonempty
    (parse : Cell → List (String × ℚ) → Except String E)
    (check : E → CheckerOutcome) (rows : List ParetoRow) (exprs : List E)
    (hne : rows ≠ [])
    (hload : load_pareto_expressions parse rows = .ok exprs) :
    assess_equivalence parse check ([] : List ParetoRow) = .error .indexError ∧
    ∃ res, assess_equivalence parse check rows = .ok res := by
  constructor
  · rfl
  · have hlen : exprs.length = rows.length :=
      load_pareto_expressions_length parse rows exprs hload
    have hrev : ((rows.map ParetoRow.reward).zip exprs).reverse ≠ [] := by
      cases rows with
      | nil => exact absurd rfl hne
      | cons a l =>
        cases exprs with
        | nil => simp at hlen
        | cons b m => simp
    have hloop := assess_loop_ne_nil check _ hrev
    rw [assess_equivalence_eq parse check rows exprs hload]
    cases hres :
        (assess_loop check (((rows.map ParetoRow.reward).zip exprs).reverse)).1 with
    | nil => exact absurd hres hloop
    | cons p ps =>
      exact ⟨((p :: ps).find? (fun q : Bool × Report => q.1)).getD p, rfl⟩

/-- C10 (witness): the theorem applied to the concrete non-empty front
`rows_two`, whose expressions all parse. -/
theorem assess_total_iff_front_nonempty_wit :
    assess_equivalence parseStrict check_allneg ([] : List ParetoRow)
      = .error .indexError ∧
    ∃ res, assess_equivalence parseStrict check_allneg rows_two = .ok res :=
  assess_total_iff_front_nonempty parseStrict check_allneg rows_two
    ["a", "b"] (by simp [rows_two]) rfl

end FeynmanAnalysis
